import Mathlib

/-!
Verification of the procurement (P2P) backend: receipt reconciliation scoring
(`purchases/tasks.py`), the approval state machine
(`purchases/services/approval_service.py` with `purchases/models.py`),
purchase-order generation (`purchases/services/purchase_order_service.py`,
`purchases/tasks.py`, `purchases/models.py`) and request-item amount
maintenance (`purchases/models.py`).

Numbers are modelled as rationals (the source computes with Python floats on
small decimal quantities).  Python strings are Lean `String`s; `lower`,
`strip`, `split()` and substring containment are modelled below.  Where
`tasks.py` defines a helper twice, the second definition is the one Python
keeps, and that is the one embedded here.
-/

deriving instance DecidableEq for Except

namespace P2P

/-- Python `str.lower()` (ASCII case mapping, as `Char.toLower`). -/
def pyLower (s : String) : String := ⟨s.data.map Char.toLower⟩

/-- Python `str.strip()`: drop leading and trailing whitespace. -/
def pyStrip (s : String) : String :=
  ⟨((s.data.dropWhile Char.isWhitespace).reverse.dropWhile Char.isWhitespace).reverse⟩

/-- Helper for `pyWords`: gather maximal runs of non-whitespace characters. -/
def wordsAux : List Char → List Char → List (List Char)
  | acc, [] => if acc = [] then [] else [acc.reverse]
  | acc, c :: cs =>
      if c.isWhitespace then
        if acc = [] then wordsAux [] cs else acc.reverse :: wordsAux [] cs
      else wordsAux (c :: acc) cs

/-- Python `str.split()` with no argument: whitespace-delimited words, empties dropped. -/
def pyWords (s : String) : List String :=
  (wordsAux [] s.data).map (fun l => (⟨l⟩ : String))

/-- Python `needle in hay` substring containment. -/
def strContains (hay needle : String) : Bool :=
  hay.data.tails.any (fun t => needle.data.isPrefixOf t)

/-- Cardinality of a Python `set(l)`. -/
def setCard (l : List String) : ℕ := l.dedup.length

/-- Cardinality of `set(a) & set(b)`. -/
def interCard (a b : List String) : ℕ := (a.dedup.filter (fun w => b.contains w)).length

/-- Cardinality of `set(a) | set(b)`. -/
def unionCard (a b : List String) : ℕ := (a ++ b).dedup.length

/-- Count of positions where the two character lists agree, as in
`sum(1 for i, c in enumerate(str1) if i < len(str2) and c == str2[i])`. -/
def countPosMatches : List Char → List Char → ℕ
  | a :: as, b :: bs => (if a = b then 1 else 0) + countPosMatches as bs
  | _, _ => 0

/-- The `_calculate_string_similarity` helper of `tasks.py` (lines 1660-1705):
exact match 1.0, substring containment 0.8, positive word-overlap (Jaccard)
`min 0.9 (0.4 + j*0.5)`, otherwise positional character similarity capped at 0.7;
empty input scores 0. -/
def calculate_string_similarity (str1 str2 : String) : ℚ :=
  if str1 = "" ∨ str2 = "" then 0
  else
    let s1 := pyStrip (pyLower str1)
    let s2 := pyStrip (pyLower str2)
    if s1 = s2 then 1
    else if strContains s2 s1 ∨ strContains s1 s2 then 0.8
    else
      let w1 := pyWords s1
      let w2 := pyWords s2
      if w1 ≠ [] ∧ w2 ≠ [] ∧ interCard w1 w2 ≠ 0 then
        min 0.9 (0.4 + ((interCard w1 w2 : ℚ) / (unionCard w1 w2 : ℚ)) * 0.5)
      else
        let maxLen := max s1.length s2.length
        if maxLen = 0 then 1
        else min 0.7 ((countPosMatches s1.data s2.data : ℚ) / (maxLen : ℚ))

/-- The `_compare_phone_numbers` helper of `tasks.py` (lines 1708-1741):
digits-only normalisation, US country-code stripping, equality 1.0,
substring 0.7, else 0. -/
def compare_phone_numbers (phone1 phone2 : String) : ℚ :=
  let d1 := phone1.data.filter Char.isDigit
  let d2 := phone2.data.filter Char.isDigit
  if d1 = [] ∨ d2 = [] then 0
  else
    let d1 := if d1.head? = some '1' ∧ d1.length = 11 then d1.tail else d1
    let d2 := if d2.head? = some '1' ∧ d2.length = 11 then d2.tail else d2
    if d1 = d2 then 1
    else if (⟨d2⟩ : String).data.tails.any (fun t => d1.isPrefixOf t) ∨
            (⟨d1⟩ : String).data.tails.any (fun t => d2.isPrefixOf t) then 0.7
    else 0

/-- Vendor record shape consumed by the comparison helpers; an absent or
falsy field is the empty string (Python treats `None` and `''` alike here). -/
structure VendorData where
  name : String
  email : String
  phone : String
  address : String
deriving DecidableEq

/-- Totals record; `dict.get(key, 0)` makes an absent entry 0. -/
structure TotalsData where
  total : ℚ
  subtotal : ℚ
  tax : ℚ
deriving DecidableEq

/-- Raw line item as it appears in receipt metadata (`description`) or
purchase-order data (`name`); the alternate keys `item` and `price` of
`_normalize_items_for_comparison` are carried as well. -/
structure RawItem where
  description : String
  name : String
  item : String
  quantity : ℚ
  unit_price : ℚ
  price : ℚ
deriving DecidableEq

/-- Normalised line item produced by `_normalize_items_for_comparison`. -/
structure NormItem where
  description : String
  quantity : ℚ
  unit_price : ℚ
  line_total : ℚ
deriving DecidableEq

/-- Observable outcome of the receipt transaction-date extraction and of the
`strptime`/regex parsing cascade in `_compare_dates` (lines 1519-1586):
the date string is absent (falsy), present but unparseable, or parsed to a
calendar day (represented by its ordinal day number). -/
inductive DateVal
  | absent
  | unparseable
  | parsed (day : ℤ)
deriving DecidableEq

/-- Receipt-side input of `_perform_receipt_validation`. -/
structure ReceiptData where
  vendor : VendorData
  items : List RawItem
  totals : TotalsData
  transaction : DateVal
deriving DecidableEq

/-- Purchase-order-side input of `_perform_receipt_validation`. -/
structure PoData where
  vendor : VendorData
  items : List RawItem
  totals : TotalsData
deriving DecidableEq

/-- Result of `_compare_vendors_detailed` (second definition, lines 1231-1312). -/
structure VendorCompareResult where
  score : ℚ
  name_match : ℚ
  contact_match : ℚ
  address_match : ℚ
deriving DecidableEq

/-- The effective `_compare_vendors_detailed` (lines 1231-1312): weighted
name/contact/address comparison.  Note the source weighs the raw
`contact_score` sum (not the averaged `contact_match`) in the final score. -/
def compare_vendors_detailed (receipt_vendor po_vendor : VendorData) : VendorCompareResult :=
  let receipt_name := pyStrip (pyLower receipt_vendor.name)
  let po_name := pyStrip (pyLower po_vendor.name)
  if receipt_name = "" ∨ po_name = "" then
    ⟨0, 0, 0, 0⟩
  else
    let name_score := calculate_string_similarity receipt_name po_name
    let phoneBoth := receipt_vendor.phone ≠ "" ∧ po_vendor.phone ≠ ""
    let emailBoth := receipt_vendor.email ≠ "" ∧ po_vendor.email ≠ ""
    let contact_score :=
      (if phoneBoth then compare_phone_numbers receipt_vendor.phone po_vendor.phone else 0) +
      (if emailBoth then
        calculate_string_similarity (pyLower receipt_vendor.email) (pyLower po_vendor.email)
      else 0)
    let contact_matches : ℕ := (if phoneBoth then 1 else 0) + (if emailBoth then 1 else 0)
    let contact_match := if contact_matches > 0 then contact_score / contact_matches else 0.8
    let address_match :=
      if receipt_vendor.address ≠ "" ∧ po_vendor.address ≠ "" then
        calculate_string_similarity (pyLower receipt_vendor.address) (pyLower po_vendor.address)
      else 0.8
    ⟨name_score * 0.7 + contact_score * 0.2 + address_match * 0.1,
     name_score, contact_match, address_match⟩

/-- Result of `_compare_totals_detailed` (second definition, lines 1315-1389). -/
structure TotalsCompareResult where
  score : ℚ
  difference : ℚ
  percentage_diff : ℚ
  subtotal_match : ℚ
  tax_match : ℚ
deriving DecidableEq

/-- The effective `_compare_totals_detailed` (lines 1315-1389): percentage
bands 1.0 / 0.95 / 0.85 / 0.75 / 0.60 / 0.0 at 0%, 1%, 3%, 5%, 10%;
a zero (absent) total on either side scores 0. -/
def compare_totals_detailed (receipt_totals po_totals : TotalsData) : TotalsCompareResult :=
  let receipt_total := receipt_totals.total
  let po_total := po_totals.total
  if receipt_total = 0 ∨ po_total = 0 then
    ⟨0, 0, 0, 0, 0⟩
  else
    let difference := |receipt_total - po_total|
    let percentage_diff := difference / max receipt_total po_total * 100
    let score :=
      if difference = 0 then 1
      else if percentage_diff ≤ 1 then 0.95
      else if percentage_diff ≤ 3 then 0.85
      else if percentage_diff ≤ 5 then 0.75
      else if percentage_diff ≤ 10 then 0.60
      else 0
    let subtotal_match :=
      if receipt_totals.subtotal > 0 ∧ po_totals.subtotal > 0 then
        max 0 (1 - (|receipt_totals.subtotal - po_totals.subtotal| /
          max receipt_totals.subtotal po_totals.subtotal * 100) / 10)
      else 0
    let tax_match :=
      if receipt_totals.tax > 0 ∧ po_totals.tax > 0 then
        max 0 (1 - (|receipt_totals.tax - po_totals.tax| /
          max receipt_totals.tax po_totals.tax * 100) / 15)
      else 0
    ⟨score, difference, percentage_diff, subtotal_match, tax_match⟩

/-- Per-item body of `_normalize_items_for_comparison` (lines 1756-1773):
pick the first truthy key among `description`, `name`, `item`, lower-case
and strip it, fall back from `unit_price` to `price` when the former is
falsy, and drop the item when the normalised description is empty. -/
def normalizeItem (it : RawItem) : Option NormItem :=
  let raw := if it.description ≠ "" then it.description
             else if it.name ≠ "" then it.name else it.item
  let description := pyStrip (pyLower raw)
  let unit_price := if it.unit_price ≠ 0 then it.unit_price else it.price
  if description ≠ "" then
    some ⟨description, it.quantity, unit_price, it.quantity * unit_price⟩
  else none

/-- The `_normalize_items_for_comparison` helper (lines 1744-1775). -/
def normalize_items_for_comparison (items : List RawItem) : List NormItem :=
  items.filterMap normalizeItem

/-- Body of the inner loop of `_compare_items_detailed` (lines 1438-1446):
consider one purchase-order item if it is still unmatched; a strictly better
similarity of at least the 0.6 acceptance threshold replaces the running
best. -/
def bestStep (rdesc : String) (unmatchedPo : List NormItem)
    (acc : Option NormItem × ℚ) (p : NormItem) : Option NormItem × ℚ :=
  if p ∈ unmatchedPo then
    let s := calculate_string_similarity rdesc p.description
    if s > acc.2 ∧ s ≥ 0.6 then (some p, s) else acc
  else acc

/-- One scan of the purchase-order items for the best fuzzy match of one
receipt item (inner loop of `_compare_items_detailed`, lines 1434-1446). -/
def bestMatch (rdesc : String) (poNorm unmatchedPo : List NormItem) : Option NormItem × ℚ :=
  poNorm.foldl (bestStep rdesc unmatchedPo) (none, 0)

/-- Accumulator of the greedy matching loop of `_compare_items_detailed`. -/
structure ItemsAcc where
  matchedPairs : List (NormItem × NormItem)
  unmatchedR : List NormItem
  unmatchedPo : List NormItem
deriving DecidableEq

/-- One step of the greedy loop: match a receipt item against the best
remaining purchase-order item, removing both from the unmatched lists
(`list.remove` deletes the first occurrence by value). -/
def itemsStep (poNorm : List NormItem) (acc : ItemsAcc) (r : NormItem) : ItemsAcc :=
  match bestMatch r.description poNorm acc.unmatchedPo with
  | (some p, _) =>
      ⟨acc.matchedPairs ++ [(r, p)], acc.unmatchedR.erase r, acc.unmatchedPo.erase p⟩
  | (none, _) => acc

/-- The full greedy matching pass over the normalised receipt items. -/
def itemsMatching (rNorm pNorm : List NormItem) : ItemsAcc :=
  rNorm.foldl (itemsStep pNorm) ⟨[], rNorm, pNorm⟩

/-- Result of `_compare_items_detailed` (second definition, lines 1392-1516);
the discrepancy lists are kept as counts (only their lengths feed the score). -/
structure ItemsCompareResult where
  score : ℚ
  matched_count : ℕ
  total_items : ℕ
  missing_items : List String
  extra_items : List String
  quantity_discrepancies : ℕ
  price_discrepancies : ℕ
deriving DecidableEq

/-- The effective `_compare_items_detailed` (lines 1392-1516): greedy fuzzy
matching (threshold 0.6) followed by quantity (>5%) and price (>2%)
discrepancy detection and a penalised match-ratio score. -/
def compare_items_detailed (receipt_items po_items : List RawItem) : ItemsCompareResult :=
  if receipt_items = [] ∧ po_items = [] then
    ⟨1, 0, 0, [], [], 0, 0⟩
  else if receipt_items = [] ∨ po_items = [] then
    ⟨0, 0, 0, [], [], 0, 0⟩
  else
    let total_items := max receipt_items.length po_items.length
    let rNorm := normalize_items_for_comparison receipt_items
    let pNorm := normalize_items_for_comparison po_items
    let acc := itemsMatching rNorm pNorm
    let matched_count := acc.matchedPairs.length
    let qty_disc := (acc.matchedPairs.filter (fun m =>
      m.1.quantity ≠ m.2.quantity ∧ m.2.quantity > 0 ∧
        |m.1.quantity - m.2.quantity| / m.2.quantity * 100 > 5)).length
    let price_disc := (acc.matchedPairs.filter (fun m =>
      m.1.unit_price ≠ m.2.unit_price ∧ m.2.unit_price > 0 ∧
        |m.1.unit_price - m.2.unit_price| / m.2.unit_price * 100 > 2)).length
    let score :=
      if total_items = 0 then 1
      else max 0 ((matched_count : ℚ) / (total_items : ℚ) -
        min 0.2 ((qty_disc : ℚ) * 0.05) - min 0.2 ((price_disc : ℚ) * 0.05))
    ⟨score, matched_count, total_items,
     acc.unmatchedPo.map (·.description), acc.unmatchedR.map (·.description),
     qty_disc, price_disc⟩

/-- The effective `_compare_dates` (lines 1519-1586), at day granularity:
no or unparseable receipt date is neutral 0.5; a parsed date is scored by its
age against `datetime.now()` (the `today` parameter): within 90 days 1.0,
within 180 days (including future dates) 0.7, older 0.3. -/
def compare_dates (transaction : DateVal) (today : ℤ) : ℚ :=
  match transaction with
  | .absent => 0.5
  | .unparseable => 0.5
  | .parsed day =>
      let daysAgo := today - day
      if 0 ≤ daysAgo ∧ daysAgo ≤ 90 then 1
      else if daysAgo ≤ 180 then 0.7
      else 0.3

/-- The effective `_determine_confidence_level` (lines 1589-1614). -/
def determine_confidence_level (overall : ℚ) (discCount : ℕ) (flags : List String) : String :=
  if flags.contains "VENDOR_MAJOR_MISMATCH" ∨ flags.contains "AMOUNT_MAJOR_DISCREPANCY" ∨
     flags.contains "POTENTIAL_VENDOR_FRAUD" then "LOW"
  else if overall ≥ 0.85 ∧ discCount ≤ 1 then "HIGH"
  else if overall ≥ 0.7 ∧ discCount ≤ 2 then "MEDIUM"
  else "LOW"

/-- Python `x % 100 == 0` for the round-amount heuristic. -/
def isMultipleOf100 (q : ℚ) : Bool := (q / 100).den = 1

/-- The effective `_check_fraud_indicators` (lines 1617-1657).  The
`vendorMatch` argument is the `validation_result['vendor_match']` entry the
source reads from the partially built result.  The emitted flags are
SUSPICIOUS_AMOUNT_INCREASE, POTENTIAL_VENDOR_FRAUD, SUSPICIOUS_ROUND_AMOUNT,
MISSING_VENDOR_INFO and MISSING_TRANSACTION_DATE. -/
def check_fraud_indicators (receipt : ReceiptData) (po : PoData) (vendorMatch : ℚ) :
    List String :=
  let receipt_total := receipt.totals.total
  let po_total := po.totals.total
  (if receipt_total > po_total * 1.5 then ["SUSPICIOUS_AMOUNT_INCREASE"] else []) ++
  (if vendorMatch < 0.3 then ["POTENTIAL_VENDOR_FRAUD"] else []) ++
  (if receipt_total > 0 ∧ isMultipleOf100 receipt_total ∧ receipt_total ≥ 1000 then
    (if |receipt_total - po_total| / max receipt_total po_total > 0.1 then
      ["SUSPICIOUS_ROUND_AMOUNT"] else [])
  else []) ++
  (if receipt.vendor.name = "" then ["MISSING_VENDOR_INFO"] else []) ++
  (if receipt.transaction = DateVal.absent then ["MISSING_TRANSACTION_DATE"] else [])

/-- Structured discrepancy record (type and severity; the remaining payload
fields of the source dicts are echoes of the inputs and sub-results). -/
structure Discrepancy where
  dtype : String
  severity : String
deriving DecidableEq

/-- Full validation outcome of `_perform_receipt_validation`, together with
the `needs_review` decision the `validate_receipt_against_po` task derives
from it at the default `RECEIPT_VALIDATION_THRESHOLD` of 0.8. -/
structure ValidationResult where
  vendor_match : ℚ
  total_match : ℚ
  items_match : ℚ
  date_match : ℚ
  overall_score : ℚ
  discrepancies : List Discrepancy
  flags : List String
  confidence_level : String
  needs_review : Bool
deriving DecidableEq

/-- The `_perform_receipt_validation` pipeline (lines 624-771), resolved to
the effective (second) helper definitions: vendor, totals, items and date
sub-scores, discrepancy and flag generation, the weighted overall score
(0.25 / 0.40 / 0.30 / 0.05), confidence, fraud indicators and the
manual-review decision. -/
def perform_receipt_validation (receipt : ReceiptData) (po : PoData) (today : ℤ) :
    ValidationResult :=
  let vendorC := compare_vendors_detailed receipt.vendor po.vendor
  let totalC := compare_totals_detailed receipt.totals po.totals
  let itemsC := compare_items_detailed receipt.items po.items
  let dateScore := compare_dates receipt.transaction today
  let discrepancies :=
    (if vendorC.score < 0.8 then
      [⟨"vendor_mismatch", if vendorC.score < 0.5 then "HIGH" else "MEDIUM"⟩] else []) ++
    (if totalC.score < 0.9 then
      [⟨"total_mismatch", if totalC.score < 0.7 then "HIGH" else "MEDIUM"⟩] else []) ++
    (if itemsC.score < 0.7 then
      [(⟨"items_mismatch", if itemsC.score > 0.4 then "MEDIUM" else "HIGH"⟩ : Discrepancy)]
    else []) ++
    (if dateScore < 0.5 then [(⟨"date_mismatch", "LOW"⟩ : Discrepancy)] else [])
  let flags0 :=
    (if vendorC.score < 0.8 ∧ vendorC.score < 0.5 then ["VENDOR_MAJOR_MISMATCH"] else []) ++
    (if totalC.score < 0.9 ∧ totalC.score < 0.7 then ["AMOUNT_MAJOR_DISCREPANCY"] else []) ++
    (if itemsC.score < 0.7 ∧ itemsC.score < 0.4 then ["ITEMS_MAJOR_MISMATCH"] else [])
  let overall := vendorC.score * 0.25 + totalC.score * 0.40 +
    itemsC.score * 0.30 + dateScore * 0.05
  let confidence0 := determine_confidence_level overall discrepancies.length flags0
  let flags1 := flags0 ++
    (if overall < 0.6 then ["REQUIRES_MANUAL_REVIEW"] else []) ++
    (if discrepancies.length ≥ 3 then ["MULTIPLE_DISCREPANCIES"] else [])
  let fraud := check_fraud_indicators receipt po vendorC.score
  let flags2 := flags1 ++ fraud
  let confidence := if fraud ≠ [] then "LOW" else confidence0
  ⟨vendorC.score, totalC.score, itemsC.score, dateScore, overall,
   discrepancies, flags2, confidence, decide (overall < 0.8)⟩

/-! ## Approval state machine

`ApprovalService.approve_request` / `reject_request`
(`services/approval_service.py`) over the `PurchaseRequest` / `Approval`
model (`models.py`).  A request is a status, an amount and its decision
records; the `unique_approval_per_request_level` constraint makes the level
of a record a key.  Users are identified by `uid` and carry the two
capability flags checked by `_validate_approval_permission`.  Timestamps
and the optimistic-locking `version` counter are not modelled. -/

/-- Request status (`PurchaseRequest.STATUS_CHOICES`). -/
inductive Status
  | pending
  | approved
  | rejected
deriving DecidableEq

/-- Approval decision (`Approval.DECISION_CHOICES`). -/
inductive Decision
  | approved
  | rejected
deriving DecidableEq

/-- An approver: identity plus the `can_approve_level_1/2` capabilities. -/
structure User where
  uid : ℕ
  canApproveL1 : Bool
  canApproveL2 : Bool
deriving DecidableEq

/-- One `Approval` row: level, approver identity, decision, comment. -/
structure ApprovalRec where
  level : ℕ
  approver : ℕ
  decision : Decision
  comment : String
deriving DecidableEq

/-- A `PurchaseRequest` with its decision records. -/
structure RequestState where
  status : Status
  amount : ℚ
  approvals : List ApprovalRec
  lastApprovedBy : Option ℕ
deriving DecidableEq

/-- Error taxonomy of the approval service.  `conflict` is the
`'Level … already decided by …'` rejection of a competing decision by a
different actor (the spec's ConflictError); the others map to
PermissionDenied and the remaining ValidationError raise sites. -/
inductive ApprovalError
  | permissionDenied
  | notPending
  | levelNotRequired
  | alreadyRejected
  | conflict
  | emptyComment
deriving DecidableEq

/-- `PurchaseRequest.get_required_approval_levels`: level 1 always, level 2
above the 1000 threshold. -/
def requiredLevels (amount : ℚ) : List ℕ :=
  if amount > 1000 then [1, 2] else [1]

/-- `PurchaseRequest.has_rejection`. -/
def hasRejection (s : RequestState) : Bool :=
  s.approvals.any (fun a => a.decision == Decision.rejected)

/-- Levels that already carry an APPROVED decision. -/
def approvedLevels (s : RequestState) : List ℕ :=
  (s.approvals.filter (fun a => a.decision == Decision.approved)).map (·.level)

/-- `PurchaseRequest.get_pending_approval_levels`. -/
def pendingLevels (s : RequestState) : List ℕ :=
  (requiredLevels s.amount).filter (fun l => !(approvedLevels s).contains l)

/-- `PurchaseRequest.is_fully_approved`. -/
def isFullyApproved (s : RequestState) : Bool :=
  (pendingLevels s).isEmpty

/-- The `get_or_create` lookup by `(request, level)`. -/
def findApproval (s : RequestState) (lvl : ℕ) : Option ApprovalRec :=
  s.approvals.find? (fun a => a.level == lvl)

/-- Overwrite decision and comment of the record at `lvl` (the same-approver
amend path of `approve_request` / `reject_request`). -/
def updateDecision (l : List ApprovalRec) (lvl : ℕ) (d : Decision) (c : String) :
    List ApprovalRec :=
  l.map (fun a => if a.level == lvl then { a with decision := d, comment := c } else a)

/-- After an APPROVED write, `Approval._update_request_status` and the
service both re-check `is_fully_approved` against the committed records and,
when it holds, transition the request to APPROVED recording the approver. -/
def applyApprovedTransition (s : RequestState) (u : User) : RequestState :=
  if isFullyApproved s then
    { s with status := Status.approved, lastApprovedBy := some u.uid }
  else s

/-- `ApprovalService.approve_request` (lines 29-147): permission, state,
level and prior-rejection checks, the idempotent `get_or_create` write with
the different-approver conflict, and the final-state transition. -/
def approveRequest (s : RequestState) (u : User) (lvl : ℕ) (c : String) :
    Except ApprovalError RequestState :=
  if lvl = 1 ∧ u.canApproveL1 = false then .error .permissionDenied
  else if lvl = 2 ∧ u.canApproveL2 = false then .error .permissionDenied
  else if s.status ≠ Status.pending then .error .notPending
  else if lvl ∉ requiredLevels s.amount then .error .levelNotRequired
  else if hasRejection s then .error .alreadyRejected
  else
    match findApproval s lvl with
    | none =>
        let s1 := { s with approvals := s.approvals ++ [⟨lvl, u.uid, Decision.approved, c⟩] }
        .ok (applyApprovedTransition s1 u)
    | some a =>
        if a.approver ≠ u.uid then .error .conflict
        else
          let s1 := { s with approvals := updateDecision s.approvals lvl Decision.approved c }
          .ok (applyApprovedTransition s1 u)

/-- `ApprovalService.reject_request` (lines 149-242): mandatory comment,
permission, state and level checks, the idempotent write with the conflict
rule, and the unconditional transition to REJECTED. -/
def rejectRequest (s : RequestState) (u : User) (lvl : ℕ) (c : String) :
    Except ApprovalError RequestState :=
  if pyStrip c = "" then .error .emptyComment
  else if lvl = 1 ∧ u.canApproveL1 = false then .error .permissionDenied
  else if lvl = 2 ∧ u.canApproveL2 = false then .error .permissionDenied
  else if s.status ≠ Status.pending then .error .notPending
  else if lvl ∉ requiredLevels s.amount then .error .levelNotRequired
  else
    match findApproval s lvl with
    | none =>
        .ok { s with approvals := s.approvals ++ [⟨lvl, u.uid, Decision.rejected, c⟩],
                     status := Status.rejected }
    | some a =>
        if a.approver ≠ u.uid then .error .conflict
        else
          .ok { s with approvals := updateDecision s.approvals lvl Decision.rejected c,
                       status := Status.rejected }

/-- State reached by an approve call: the new state on success, the old
state when the service raises (the transaction rolls back any write). -/
def runApprove (s : RequestState) (u : User) (lvl : ℕ) (c : String) : RequestState :=
  match approveRequest s u lvl c with
  | .ok s2 => s2
  | .error _ => s

/-- Number of decision records at `(request, lvl)`. -/
def countLevel (s : RequestState) (lvl : ℕ) : ℕ :=
  (s.approvals.filter (fun a => a.level == lvl)).length

/-! ## Purchase-order generation

`PurchaseOrderService.generate_purchase_order` with the model-level
`full_clean` of `PurchaseOrder` (`models.py` lines 627-660), and the
`_generate_unique_po_number` helper of `tasks.py` (lines 359-401). -/

/-- Failure modes of purchase-order creation.  `attributeErrorCurrency` is
the `AttributeError` raised when `PurchaseOrder.clean` reads
`self.currency`, a field the model does not declare. -/
inductive PoError
  | notApproved
  | validationErrorTotal
  | validationErrorVendor
  | attributeErrorCurrency
deriving DecidableEq

/-- A created purchase order, as far as the claims need it. -/
structure PoRecord where
  po_number : String
  vendor : String
  total : ℚ
deriving DecidableEq

/-- A request from the generator's point of view: its status and amount,
the vendor name extracted from the proforma (if any), and the one-to-one
order if one already exists. -/
structure PoGenState where
  status : Status
  amount : ℚ
  proformaVendor : Option String
  po : Option PoRecord
deriving DecidableEq

/-- `PurchaseOrder.full_clean` as invoked by `save`: the `total`
`MinValueValidator(0.01)` field check, then `clean` which checks the vendor
name, re-checks the total, and then reads the undeclared `currency`
attribute, raising `AttributeError` before `save` can ever complete. -/
def purchaseOrderFullClean (vendor : String) (total : ℚ) : Except PoError Unit :=
  if total < 1/100 then .error .validationErrorTotal
  else if pyStrip vendor = "" then .error .validationErrorVendor
  else if total ≤ 0 then .error .validationErrorTotal
  else .error .attributeErrorCurrency

/-- `PurchaseOrderService.generate_purchase_order` (lines 26-75): require an
APPROVED request, return the existing order unchanged if there is one, else
create one (the creation path must pass the model `full_clean`).  `poNum`
stands for the number the model would generate for the new order. -/
def generatePurchaseOrder (st : PoGenState) (poNum : String) :
    Except PoError (PoRecord × PoGenState) :=
  if st.status ≠ Status.approved then .error .notApproved
  else
    match st.po with
    | some p => .ok (p, st)
    | none =>
        let vendor := st.proformaVendor.getD "Unknown Vendor"
        match purchaseOrderFullClean vendor st.amount with
        | .error e => .error e
        | .ok _ =>
            let p : PoRecord := ⟨poNum, vendor, st.amount⟩
            .ok (p, { st with po := some p })

/-- Fatal outcome of `_generate_unique_po_number` when the retry budget is
exhausted (`POGenerationError`). -/
inductive PoNumberError
  | generationError
deriving DecidableEq

/-- Python slice `s[a:b]`. -/
def pySlice (s : String) (a b : ℕ) : String :=
  ⟨(s.data.drop a).take (b - a)⟩

/-- Python `int(s)` on the sliced sequence field: digits parse to a number,
anything else raises `ValueError` (mapped to `none`). -/
def parseDigits (s : String) : Option ℕ :=
  if s.data ≠ [] ∧ s.data.all Char.isDigit then
    some (s.data.foldl (fun n c => n * 10 + (c.toNat - 48)) 0)
  else none

/-- Lexicographic character-list comparison (the `order_by('-po_number')`
string ordering restricted to the ASCII order numbers). -/
def charListLt : List Char → List Char → Bool
  | [], [] => false
  | [], _ :: _ => true
  | _ :: _, [] => false
  | a :: as, b :: bs => if a < b then true else if b < a then false else charListLt as bs

/-- Largest element of a list of strings in lexicographic order. -/
def listMaxStr (l : List String) : Option String :=
  l.foldl
    (fun acc s =>
      match acc with
      | none => some s
      | some m => if charListLt m.data s.data then some s else some m)
    none

/-- Decimal digit string of a natural number. -/
def natToStr (n : ℕ) : String := ⟨Nat.toDigits 10 n⟩

/-- Python `f"{n:06d}"` zero padding to six digits. -/
def formatSeq6 (n : ℕ) : String :=
  let ds := Nat.toDigits 10 n
  ⟨List.replicate (6 - ds.length) '0' ++ ds⟩

/-- Assemble `f"PO-{year}{seq:06d}{suffix}"`. -/
def mkPoNumber (year seq suffix : ℕ) : String :=
  "PO-" ++ natToStr year ++ formatSeq6 seq ++ natToStr suffix

/-- The collision-retry `while` loop of `_generate_unique_po_number`:
while the candidate collides and fewer than ten retries were made, redraw
the suffix.  The suffix list models the stream of `random.randint(100, 999)`
draws still available. -/
def poRetryLoop (existing : List String) (year seq : ℕ) :
    List ℕ → String → ℕ → String × ℕ
  | [], po, retry => (po, retry)
  | sfx :: rest, po, retry =>
      if existing.contains po ∧ retry < 10 then
        poRetryLoop existing year seq rest (mkPoNumber year seq sfx) (retry + 1)
      else (po, retry)

/-- `_generate_unique_po_number` (`tasks.py` lines 359-401): filter existing
numbers by the `PO-<year>` prefix, take the string-wise highest, parse the
character slice `[8:14]` as the previous sequence (falling back to 0 so the
next is 1), append a random three-digit suffix, and retry on collision at
most ten times.  `sfx0` is the first random draw, `rest` the later ones. -/
def generateUniquePoNumber (existing : List String) (year : ℕ) (sfx0 : ℕ) (rest : List ℕ) :
    Except PoNumberError String :=
  let yearPrefix := "PO-" ++ natToStr year
  let candidates := existing.filter (fun s => yearPrefix.data.isPrefixOf s.data)
  let nextSeq :=
    match listMaxStr candidates with
    | none => 1
    | some top =>
        match parseDigits (pySlice top 8 14) with
        | some n => n + 1
        | none => 1
  let po0 := mkPoNumber year nextSeq sfx0
  let (po, retry) := poRetryLoop existing year nextSeq rest po0 0
  if retry ≥ 10 then .error .generationError else .ok po

/-! ## Request items and the derived amount

`RequestItem.save` / `RequestItem.delete` and
`RequestItem._update_parent_amount` (`models.py` lines 242-377) against the
invariant `amount == Σ item.line_total`. -/

/-- A `RequestItem` row: name, positive integer quantity, unit price. -/
structure ReqItem where
  name : String
  quantity : ℕ
  unit_price : ℚ
deriving DecidableEq

/-- The owning request as the item mutations see it. -/
structure ItemsState where
  status : Status
  amount : ℚ
  items : List ReqItem
deriving DecidableEq

/-- Validation failure of a `full_clean` during an item mutation. -/
inductive MutError
  | validationError
deriving DecidableEq

/-- `PurchaseRequest.calculated_total`: `Σ quantity * unit_price`. -/
def calculatedTotal (items : List ReqItem) : ℚ :=
  (items.map (fun it => (it.quantity : ℚ) * it.unit_price)).sum

/-- `RequestItem.save` for a new item: `full_clean` (nonempty name, positive
quantity and price, parent PENDING) then the insert followed by
`_update_parent_amount`, which recomputes the parent amount through a raw
`update` that bypasses request validation. -/
def requestItemCreate (s : ItemsState) (it : ReqItem) : ItemsState × Option MutError :=
  if pyStrip it.name = "" ∨ it.quantity = 0 ∨ it.unit_price < 1/100 ∨
      s.status ≠ Status.pending then
    (s, some .validationError)
  else
    let items2 := s.items ++ [it]
    ({ s with items := items2, amount := calculatedTotal items2 }, none)

/-- `RequestItem.delete`: the row is deleted first; then the parent amount
is recomputed and written through `PurchaseRequest.save`, whose `full_clean`
(`MinValueValidator(0.01)` and `clean`) rejects a non-positive amount — in
that case the deletion stands but the stored amount is left unchanged. -/
def requestItemDelete (s : ItemsState) (idx : ℕ) : ItemsState × Option MutError :=
  let items2 := s.items.eraseIdx idx
  let t := calculatedTotal items2
  if t < 1/100 then ({ s with items := items2 }, some .validationError)
  else ({ s with items := items2, amount := t }, none)

/-! ## Spec-side definitions used for comparison

These two definitions transcribe the claimed banding of the total sub-score
(the words of the specification), to be compared against
`compare_totals_detailed` above. -/

/-- Total-score banding as the specification states it: 0% difference 1.0,
within 1% 0.95, within 2% 0.90, within 5% 0.80, within 10% 0.60, within
20% 0.30, otherwise 0; absent totals 0. -/
def claimedTotalScore (rt pt : ℚ) : ℚ :=
  if rt = 0 ∨ pt = 0 then 0
  else
    let pct := |rt - pt| / max rt pt * 100
    if pct = 0 then 1
    else if pct ≤ 1 then 0.95
    else if pct ≤ 2 then 0.90
    else if pct ≤ 5 then 0.80
    else if pct ≤ 10 then 0.60
    else if pct ≤ 20 then 0.30
    else 0

/-- Closed-form banding actually implemented by `compare_totals_detailed`,
phrased by relative difference: equality 1.0, within 1% of the larger total
0.95, within 3% 0.85, within 5% 0.75, within 10% 0.60, otherwise 0; a zero
(absent) total on either side 0. -/
def implementedTotalScore (rt pt : ℚ) : ℚ :=
  if rt = 0 ∨ pt = 0 then 0
  else if rt = pt then 1
  else if |rt - pt| ≤ 1/100 * max rt pt then 0.95
  else if |rt - pt| ≤ 3/100 * max rt pt then 0.85
  else if |rt - pt| ≤ 5/100 * max rt pt then 0.75
  else if |rt - pt| ≤ 10/100 * max rt pt then 0.60
  else 0

/-- An item description that normalisation leaves unchanged: nonempty,
already lower-case, free of whitespace. -/
def cleanDescription (it : RawItem) : Prop :=
  it.description ≠ "" ∧
    ∀ ch ∈ it.description.data, Char.toLower ch = ch ∧ ch.isWhitespace = false

instance (it : RawItem) : Decidable (cleanDescription it) := by
  unfold cleanDescription
  infer_instance

/-! ## Lemmas about the approval state machine -/

theorem one_mem_requiredLevels (amount : ℚ) : 1 ∈ requiredLevels amount := by
  unfold requiredLevels
  split <;> simp

theorem applyApprovedTransition_approvals (s : RequestState) (u : User) :
    (applyApprovedTransition s u).approvals = s.approvals := by
  unfold applyApprovedTransition
  split <;> rfl

theorem countLevel_of_find_none (s : RequestState) (lvl : ℕ)
    (h : findApproval s lvl = none) : countLevel s lvl = 0 := by
  unfold findApproval at h
  unfold countLevel
  rw [List.find?_eq_none] at h
  simp only [List.length_eq_zero]
  rw [List.filter_eq_nil_iff]
  exact h

theorem length_filter_level_of_find_some (l : List ApprovalRec) (lvl : ℕ) (a : ApprovalRec)
    (hnd : (l.map (·.level)).Nodup) (h : l.find? (fun x => x.level == lvl) = some a) :
    (l.filter (fun x => x.level == lvl)).length = 1 := by
  induction l with
  | nil => simp at h
  | cons b t ih =>
      simp only [List.map_cons, List.nodup_cons] at hnd
      by_cases hb : (b.level == lvl) = true
      · have hnil : List.filter (fun x => x.level == lvl) t = [] := by
          rw [List.filter_eq_nil_iff]
          intro x hx hxl
          apply hnd.1
          have hbl : b.level = lvl := by simpa using hb
          have hxl2 : x.level = lvl := by simpa using hxl
          rw [hbl, ← hxl2]
          exact List.mem_map_of_mem _ hx
        simp [List.filter_cons, hb, hnil]
      · rw [Bool.not_eq_true] at hb
        simp only [List.find?_cons, hb] at h
        simp only [List.filter_cons, hb, Bool.false_eq_true, if_false]
        exact ih hnd.2 h

theorem countLevel_of_find_some (s : RequestState) (lvl : ℕ) (a : ApprovalRec)
    (hnd : (s.approvals.map (·.level)).Nodup)
    (h : findApproval s lvl = some a) : countLevel s lvl = 1 :=
  length_filter_level_of_find_some s.approvals lvl a hnd h

theorem updateDecision_of_no_level (l : List ApprovalRec) (lvl : ℕ) (d : Decision) (c : String)
    (h : ∀ a ∈ l, a.level ≠ lvl) : updateDecision l lvl d c = l := by
  unfold updateDecision
  induction l with
  | nil => rfl
  | cons b t ih =>
      simp only [List.map_cons]
      rw [if_neg (by simp [h b (by simp)]), ih (fun a ha => h a (by simp [ha]))]

theorem updateDecision_idem (l : List ApprovalRec) (lvl : ℕ) (d : Decision) (c : String) :
    updateDecision (updateDecision l lvl d c) lvl d c = updateDecision l lvl d c := by
  unfold updateDecision
  rw [List.map_map]
  apply List.map_congr_left
  intro a _
  by_cases h : a.level = lvl <;> simp [h]

theorem find_updateDecision (l : List ApprovalRec) (lvl : ℕ) (d : Decision) (c : String) :
    (updateDecision l lvl d c).find? (fun a => a.level == lvl) =
      (l.find? (fun a => a.level == lvl)).map
        (fun a => { a with decision := d, comment := c }) := by
  unfold updateDecision
  induction l with
  | nil => rfl
  | cons b t ih =>
      simp only [List.map_cons]
      by_cases h : (b.level == lvl) = true
      · rw [if_pos h, List.find?_cons, List.find?_cons]
        simp only [h]
        rfl
      · rw [if_neg h, List.find?_cons, List.find?_cons]
        rw [Bool.not_eq_true] at h
        simp only [h]
        exact ih

theorem length_filter_map_level (t : List ApprovalRec) (lvl lvl2 : ℕ) (d : Decision)
    (c : String) :
    (List.filter (fun x => x.level == lvl2) (List.map
      (fun a => if (a.level == lvl) = true
        then { a with decision := d, comment := c } else a) t)).length =
      (List.filter (fun x => x.level == lvl2) t).length := by
  induction t with
  | nil => rfl
  | cons b t ih =>
      simp only [List.map_cons]
      by_cases h : (b.level == lvl) = true
      · rw [if_pos h, List.filter_cons, List.filter_cons]
        by_cases h2 : (b.level == lvl2) = true
        · simp only [h2, if_true, List.length_cons, ih]
        · rw [Bool.not_eq_true] at h2
          simp only [h2, Bool.false_eq_true, if_false, ih]
      · rw [if_neg h, List.filter_cons, List.filter_cons]
        by_cases h2 : (b.level == lvl2) = true
        · simp only [h2, if_true, List.length_cons, ih]
        · rw [Bool.not_eq_true] at h2
          simp only [h2, Bool.false_eq_true, if_false, ih]

theorem countLevel_updateDecision (s : RequestState) (lvl lvl2 : ℕ) (d : Decision) (c : String) :
    countLevel { s with approvals := updateDecision s.approvals lvl d c } lvl2 =
      countLevel s lvl2 := by
  unfold countLevel updateDecision
  exact length_filter_map_level s.approvals lvl lvl2 d c

theorem hasRejection_append_approved (s : RequestState) (r : ApprovalRec)
    (hr : r.decision = Decision.approved) (h : hasRejection s = false) :
    hasRejection { s with approvals := s.approvals ++ [r] } = false := by
  unfold hasRejection at *
  simp only [List.any_append, List.any_cons, List.any_nil, Bool.or_false, Bool.or_eq_false_iff]
  exact ⟨h, by simp [hr]⟩

theorem hasRejection_updateDecision_approved (s : RequestState) (lvl : ℕ) (c : String)
    (h : hasRejection s = false) :
    hasRejection { s with approvals := updateDecision s.approvals lvl Decision.approved c } =
      false := by
  unfold hasRejection updateDecision at *
  simp only [List.any_map, List.any_eq_false, Function.comp] at *
  intro a ha
  by_cases hl : a.level = lvl <;> simp [hl, h a ha]

theorem countLevel_append (s : RequestState) (r : ApprovalRec) (lvl : ℕ)
    (hr : r.level = lvl) :
    countLevel { s with approvals := s.approvals ++ [r] } lvl = countLevel s lvl + 1 := by
  unfold countLevel
  simp [List.filter_append, hr]

/-- Reduction of `approveRequest` under the hypotheses of the idempotence and
conflict claims: permission, state, level and rejection checks all pass. -/
theorem approveRequest_reduce (s : RequestState) (u : User) (c : String)
    (hp : s.status = Status.pending) (hcap : u.canApproveL1 = true)
    (hnorej : hasRejection s = false) :
    approveRequest s u 1 c =
      match findApproval s 1 with
      | none =>
          .ok (applyApprovedTransition
            { s with approvals := s.approvals ++ [⟨1, u.uid, Decision.approved, c⟩] } u)
      | some a =>
          if a.approver ≠ u.uid then .error .conflict
          else
            .ok (applyApprovedTransition
              { s with approvals := updateDecision s.approvals 1 Decision.approved c } u) := by
  unfold approveRequest
  rw [if_neg (by simp [hcap]), if_neg (by simp), if_neg (by simp [hp]),
    if_neg (by simp [one_mem_requiredLevels]), if_neg (by simp [hnorej])]

theorem approveRequest_notPending (s : RequestState) (u : User) (lvl : ℕ) (c : String)
    (hp : s.status ≠ Status.pending) (hcap : u.canApproveL1 = true) (hl : lvl = 1) :
    approveRequest s u lvl c = .error .notPending := by
  unfold approveRequest
  rw [if_neg (by simp [hcap, hl]), if_neg (by simp [hl]), if_pos hp]

theorem runApprove_of_error (s : RequestState) (u : User) (lvl : ℕ) (c : String)
    (e : ApprovalError) (h : approveRequest s u lvl c = .error e) :
    runApprove s u lvl c = s := by
  unfold runApprove
  rw [h]

theorem runApprove_of_ok (s s2 : RequestState) (u : User) (lvl : ℕ) (c : String)
    (h : approveRequest s u lvl c = .ok s2) :
    runApprove s u lvl c = s2 := by
  unfold runApprove
  rw [h]

theorem updateDecision_append_fresh (l : List ApprovalRec) (u : User) (c : String)
    (h : ∀ a ∈ l, a.level ≠ 1) :
    updateDecision (l ++ [⟨1, u.uid, Decision.approved, c⟩]) 1 Decision.approved c =
      l ++ [⟨1, u.uid, Decision.approved, c⟩] := by
  unfold updateDecision
  rw [List.map_append]
  have h1 : List.map (fun a => if (a.level == 1) = true
      then { a with decision := Decision.approved, comment := c } else a) l = l :=
    updateDecision_of_no_level l 1 Decision.approved c h
  rw [h1]
  rfl

theorem find_level_of_find_none (s : RequestState) (lvl : ℕ)
    (h : findApproval s lvl = none) : ∀ a ∈ s.approvals, a.level ≠ lvl := by
  unfold findApproval at h
  rw [List.find?_eq_none] at h
  intro a ha hl
  exact h a ha (by simp [hl])

theorem countLevel_congr (s1 s2 : RequestState) (lvl : ℕ)
    (h : s1.approvals = s2.approvals) : countLevel s1 lvl = countLevel s2 lvl := by
  unfold countLevel
  rw [h]

/-! ## C3: approve is idempotent -/

/-- C3: for a PENDING request (hence with no REJECTED decision on record —
every rejection write also sets the status to REJECTED) whose decision levels
are unique (the `unique_approval_per_request_level` constraint), two calls of
`approve(r, A, 1, c)` by a level-1-capable approver A leave exactly one
decision record at level 1, and the state after the second call equals the
state after the first: the second call either amends the record in place
with the identical decision and comment, or is rejected without a write. -/
theorem approve_idempotent (s : RequestState) (u : User) (c : String)
    (hp : s.status = Status.pending) (hcap : u.canApproveL1 = true)
    (hnorej : hasRejection s = false)
    (hnd : (s.approvals.map (·.level)).Nodup) :
    runApprove (runApprove s u 1 c) u 1 c = runApprove s u 1 c ∧
      countLevel (runApprove (runApprove s u 1 c) u 1 c) 1 = 1 := by
  have hred := approveRequest_reduce s u c hp hcap hnorej
  cases hfind : findApproval s 1 with
  | none =>
      have hfresh := find_level_of_find_none s 1 hfind
      have h1 : approveRequest s u 1 c =
          .ok (applyApprovedTransition
            { s with approvals := s.approvals ++ [⟨1, u.uid, Decision.approved, c⟩] } u) := by
        rw [hred, hfind]
      have hrun1 := runApprove_of_ok _ _ _ _ _ h1
      rw [hrun1]
      have hcount : countLevel
          { s with approvals := s.approvals ++ [⟨1, u.uid, Decision.approved, c⟩] } 1 = 1 := by
        rw [countLevel_append s _ 1 rfl, countLevel_of_find_none s 1 hfind]
      by_cases hfull : isFullyApproved
          { s with approvals := s.approvals ++ [⟨1, u.uid, Decision.approved, c⟩] }
      · have happ : applyApprovedTransition
            { s with approvals := s.approvals ++ [⟨1, u.uid, Decision.approved, c⟩] } u =
            { s with approvals := s.approvals ++ [⟨1, u.uid, Decision.approved, c⟩],
                     status := Status.approved, lastApprovedBy := some u.uid } := by
          unfold applyApprovedTransition
          rw [if_pos hfull]
        have herr : approveRequest (applyApprovedTransition
            { s with approvals := s.approvals ++ [⟨1, u.uid, Decision.approved, c⟩] } u)
            u 1 c = .error .notPending := by
          apply approveRequest_notPending _ _ _ _ _ hcap rfl
          rw [happ]
          simp
        rw [runApprove_of_error _ _ _ _ _ herr]
        exact ⟨rfl, by rw [happ]; exact hcount⟩
      · have happ : applyApprovedTransition
            { s with approvals := s.approvals ++ [⟨1, u.uid, Decision.approved, c⟩] } u =
            { s with approvals := s.approvals ++ [⟨1, u.uid, Decision.approved, c⟩] } := by
          unfold applyApprovedTransition
          rw [if_neg hfull]
        rw [happ]
        have hred2 := approveRequest_reduce
          { s with approvals := s.approvals ++ [⟨1, u.uid, Decision.approved, c⟩] } u c
          hp hcap (hasRejection_append_approved s _ rfl hnorej)
        have hfind2 : findApproval
            { s with approvals := s.approvals ++ [⟨1, u.uid, Decision.approved, c⟩] } 1 =
            some ⟨1, u.uid, Decision.approved, c⟩ := by
          unfold findApproval at hfind ⊢
          simp only [List.find?_append, hfind, Option.none_or]
          rfl
        have h2 : approveRequest
            { s with approvals := s.approvals ++ [⟨1, u.uid, Decision.approved, c⟩] } u 1 c =
            .ok { s with approvals := s.approvals ++ [⟨1, u.uid, Decision.approved, c⟩] } := by
          rw [hred2]
          simp only [hfind2]
          rw [if_neg (by simp)]
          have hupd : updateDecision
              (s.approvals ++ [⟨1, u.uid, Decision.approved, c⟩]) 1 Decision.approved c =
              s.approvals ++ [⟨1, u.uid, Decision.approved, c⟩] :=
            updateDecision_append_fresh s.approvals u c hfresh
          simp only [hupd]
          unfold applyApprovedTransition
          rw [if_neg hfull]
        rw [runApprove_of_ok _ _ _ _ _ h2]
        exact ⟨rfl, hcount⟩
  | some a =>
      by_cases happrover : a.approver = u.uid
      · have h1 : approveRequest s u 1 c =
            .ok (applyApprovedTransition
              { s with approvals := updateDecision s.approvals 1 Decision.approved c } u) := by
          rw [hred]
          simp only [hfind]
          rw [if_neg (by simp [happrover])]
        have hrun1 := runApprove_of_ok _ _ _ _ _ h1
        rw [hrun1]
        have hcount : countLevel
            { s with approvals := updateDecision s.approvals 1 Decision.approved c } 1 = 1 := by
          rw [countLevel_updateDecision]
          exact countLevel_of_find_some s 1 a hnd hfind
        by_cases hfull : isFullyApproved
            { s with approvals := updateDecision s.approvals 1 Decision.approved c }
        · have happ : applyApprovedTransition
              { s with approvals := updateDecision s.approvals 1 Decision.approved c } u =
              { s with approvals := updateDecision s.approvals 1 Decision.approved c,
                       status := Status.approved, lastApprovedBy := some u.uid } := by
            unfold applyApprovedTransition
            rw [if_pos hfull]
          have herr : approveRequest (applyApprovedTransition
              { s with approvals := updateDecision s.approvals 1 Decision.approved c } u)
              u 1 c = .error .notPending := by
            apply approveRequest_notPending _ _ _ _ _ hcap rfl
            rw [happ]
            simp
          rw [runApprove_of_error _ _ _ _ _ herr]
          exact ⟨rfl, by rw [happ]; exact hcount⟩
        · have happ : applyApprovedTransition
              { s with approvals := updateDecision s.approvals 1 Decision.approved c } u =
              { s with approvals := updateDecision s.approvals 1 Decision.approved c } := by
            unfold applyApprovedTransition
            rw [if_neg hfull]
          rw [happ]
          have hred2 := approveRequest_reduce
            { s with approvals := updateDecision s.approvals 1 Decision.approved c } u c
            hp hcap (hasRejection_updateDecision_approved s 1 c hnorej)
          have hfind2 : findApproval
              { s with approvals := updateDecision s.approvals 1 Decision.approved c } 1 =
              some { a with decision := Decision.approved, comment := c } := by
            unfold findApproval at hfind ⊢
            simp only
            rw [find_updateDecision, hfind]
            rfl
          have h2 : approveRequest
              { s with approvals := updateDecision s.approvals 1 Decision.approved c } u 1 c =
              .ok { s with approvals := updateDecision s.approvals 1 Decision.approved c } := by
            rw [hred2]
            simp only [hfind2]
            rw [if_neg (by simp [happrover])]
            simp only [updateDecision_idem]
            unfold applyApprovedTransition
            rw [if_neg hfull]
          rw [runApprove_of_ok _ _ _ _ _ h2]
          exact ⟨rfl, hcount⟩
      · have h1 : approveRequest s u 1 c = .error .conflict := by
          rw [hred]
          simp only [hfind]
          rw [if_pos happrover]
        rw [runApprove_of_error _ _ _ _ _ h1, runApprove_of_error _ _ _ _ _ h1]
        exact ⟨rfl, countLevel_of_find_some s 1 a hnd hfind⟩

/-- C3 witness: a fresh PENDING request of amount 2000 approved twice at
level 1 by the same capable approver. -/
theorem approve_idempotent_witness :
    ((⟨Status.pending, 2000, [], none⟩ : RequestState).status = Status.pending ∧
      (⟨1, true, false⟩ : User).canApproveL1 = true ∧
      hasRejection ⟨Status.pending, 2000, [], none⟩ = false ∧
      ((⟨Status.pending, 2000, [], none⟩ : RequestState).approvals.map (·.level)).Nodup) ∧
    (runApprove (runApprove ⟨Status.pending, 2000, [], none⟩ ⟨1, true, false⟩ 1 "ok")
        ⟨1, true, false⟩ 1 "ok" =
      runApprove ⟨Status.pending, 2000, [], none⟩ ⟨1, true, false⟩ 1 "ok" ∧
      countLevel (runApprove (runApprove ⟨Status.pending, 2000, [], none⟩ ⟨1, true, false⟩ 1 "ok")
        ⟨1, true, false⟩ 1 "ok") 1 = 1) :=
  ⟨⟨rfl, rfl, rfl, by simp⟩,
    approve_idempotent ⟨Status.pending, 2000, [], none⟩ ⟨1, true, false⟩ "ok"
      rfl rfl rfl (by simp)⟩

/-! ## C4: competing decision by a different approver -/

/-- C4: when level 1 of a PENDING request already carries the decision of
approver A, an approve call by a different level-1-capable approver B fails
with the conflict error (`'Level 1 already decided by …'`), and the request
keeps exactly one decision record at level 1. -/
theorem approve_conflict (s : RequestState) (uA uB : User) (a : ApprovalRec) (c : String)
    (hp : s.status = Status.pending) (hcapB : uB.canApproveL1 = true)
    (hnorej : hasRejection s = false)
    (hnd : (s.approvals.map (·.level)).Nodup)
    (hfind : findApproval s 1 = some a)
    (hA : a.approver = uA.uid) (hne : uA.uid ≠ uB.uid) :
    approveRequest s uB 1 c = .error .conflict ∧ countLevel s 1 = 1 := by
  constructor
  · rw [approveRequest_reduce s uB c hp hcapB hnorej]
    simp only [hfind]
    rw [if_pos]
    rw [hA]
    exact hne
  · exact countLevel_of_find_some s 1 a hnd hfind

/-- C4 witness: approver 2 attempts level 1 of a request already decided at
level 1 by approver 1. -/
theorem approve_conflict_witness :
    ((⟨Status.pending, 2000, [⟨1, 1, Decision.approved, "x"⟩], none⟩ :
        RequestState).status = Status.pending ∧
      (⟨2, true, true⟩ : User).canApproveL1 = true ∧
      hasRejection ⟨Status.pending, 2000, [⟨1, 1, Decision.approved, "x"⟩], none⟩ = false ∧
      ((⟨Status.pending, 2000, [⟨1, 1, Decision.approved, "x"⟩], none⟩ :
        RequestState).approvals.map (·.level)).Nodup ∧
      findApproval ⟨Status.pending, 2000, [⟨1, 1, Decision.approved, "x"⟩], none⟩ 1 =
        some ⟨1, 1, Decision.approved, "x"⟩ ∧
      (⟨1, true, false⟩ : User).uid ≠ (⟨2, true, true⟩ : User).uid) ∧
    (approveRequest ⟨Status.pending, 2000, [⟨1, 1, Decision.approved, "x"⟩], none⟩
        ⟨2, true, true⟩ 1 "y" = .error .conflict ∧
      countLevel ⟨Status.pending, 2000, [⟨1, 1, Decision.approved, "x"⟩], none⟩ 1 = 1) :=
  ⟨⟨rfl, rfl, rfl, by simp, rfl, by decide⟩,
    approve_conflict ⟨Status.pending, 2000, [⟨1, 1, Decision.approved, "x"⟩], none⟩
      ⟨1, true, false⟩ ⟨2, true, true⟩ ⟨1, 1, Decision.approved, "x"⟩ "y"
      rfl rfl rfl (by simp) rfl rfl (by decide)⟩

/-! ## C5: any successful rejection forces REJECTED -/

/-- C5: whenever `reject` succeeds at any level of a request, the resulting
request status is REJECTED, regardless of APPROVED decisions already recorded
at the other levels (the write is unconditional in `reject_request`). -/
theorem reject_forces_rejected (s : RequestState) (u : User) (lvl : ℕ) (c : String)
    (s2 : RequestState) (h : rejectRequest s u lvl c = .ok s2) :
    s2.status = Status.rejected := by
  unfold rejectRequest at h
  split at h
  · cases h
  split at h
  · cases h
  split at h
  · cases h
  split at h
  · cases h
  split at h
  · cases h
  split at h
  · cases h
    rfl
  split at h
  · cases h
  · cases h
    rfl

/-! ## C6: purchase-order generation (code bug)

The creation path can never succeed: `PurchaseOrder.save` runs `full_clean`,
and `PurchaseOrder.clean` dereferences `self.currency`, a field the model
does not declare, raising `AttributeError` — while the module's own test
(`test_purchase_order_model.py`) both creates orders and asserts
`po.currency == 'USD'`. -/

/-- C6 (failing evaluation): generating a purchase order for an APPROVED
request that has no order yet crashes inside the model `full_clean` with the
`AttributeError` on the undeclared `currency` field, so no `poNumber` is ever
returned and the claimed idempotent second call can never be reached. -/
theorem generate_po_always_crashes :
    generatePurchaseOrder ⟨Status.approved, 500, none, none⟩ "PO-2024000001123" =
      .error PoError.attributeErrorCurrency := by
  unfold generatePurchaseOrder purchaseOrderFullClean
  rw [if_neg (by simp)]
  simp only [Option.getD]
  rw [if_neg (by norm_num), if_neg (by decide), if_neg (by norm_num)]

/-! ## C7: order-number sequence (code bug)

`_generate_unique_po_number` documents the format `PO-YYYYNNNNNNXXX` and a
sequence derived from the highest existing number, but slices characters
`[8:14]` — the sequence occupies characters `[7:13]` — so the parsed
"previous sequence" mixes the last five sequence digits with the first digit
of the random suffix. -/

/-- C7 (failing evaluation): with the single existing number
`PO-2024000001123` (year 2024, sequence 000001, suffix 123) and next random
suffix 456, the generator parses `s[8:14] = "000011"` and emits
`PO-2024000012456`: its sequence field (characters `[7:13]`) is `000012`,
not the `000002` that one plus the highest existing sequence (`000001`)
would give. -/
theorem po_number_sequence_off :
    generateUniquePoNumber ["PO-2024000001123"] 2024 456 [789] =
        .ok "PO-2024000012456" ∧
      pySlice "PO-2024000001123" 8 14 = "000011" ∧
      pySlice "PO-2024000001123" 7 13 = "000001" ∧
      pySlice "PO-2024000012456" 7 13 = "000012" ∧
      ("000012" : String) ≠ "000002" := by
  refine ⟨?_, by decide, by decide, by decide, by decide⟩
  decide

/-! ## C9: request amount after item mutation (code bug)

`RequestItem.delete` removes the row first and then writes the recomputed
parent amount through `PurchaseRequest.save`; when the last item is deleted
the recomputed amount 0 fails the amount validators, the write is rejected,
and the stored amount is left stale — contradicting the documented invariant
`amount == Σ item.line_total` and the delete docstring itself. -/

/-- C9 (failing evaluation): deleting the only item (quantity 1, unit price
100) of a request with amount 100 leaves the request with no items but
amount still 100, while the sum of line totals over the remaining items is
0; the amount update raises a validation error instead. -/
theorem delete_last_item_leaves_stale_amount :
    requestItemDelete ⟨Status.pending, 100, [⟨"widget", 1, 100⟩]⟩ 0 =
        (⟨Status.pending, 100, []⟩, some MutError.validationError) ∧
      calculatedTotal [] = 0 ∧ (100 : ℚ) ≠ 0 := by
  refine ⟨?_, by simp [calculatedTotal], by norm_num⟩
  unfold requestItemDelete
  rw [if_pos (by norm_num [calculatedTotal])]
  rfl

/-! ## C2: total-score bands -/

/-- C2 counterexample: at receipt total 98 against order total 100 the
relative difference is exactly 2%, where the claimed banding gives 0.90 but
the effective `_compare_totals_detailed` gives 0.85 (its bands move at
1%, 3%, 5%, 10% with values 0.95 / 0.85 / 0.75 / 0.60 and no 0.30 band). -/
theorem total_score_band_mismatch :
    (compare_totals_detailed ⟨98, 0, 0⟩ ⟨100, 0, 0⟩).score = 0.85 ∧
      claimedTotalScore 98 100 = 0.9 ∧ (0.85 : ℚ) ≠ 0.9 := by
  refine ⟨?_, ?_, by norm_num⟩
  · unfold compare_totals_detailed
    rw [if_neg (by norm_num)]
    have hmax : max (98 : ℚ) 100 = 100 := by norm_num [max_def]
    simp only [hmax]
    norm_num
  · unfold claimedTotalScore
    rw [if_neg (by norm_num)]
    have hmax : max (98 : ℚ) 100 = 100 := by norm_num [max_def]
    simp only [hmax]
    norm_num

/-- C2 amended: for nonnegative totals the effective sub-score follows the
implemented bands — 0% difference 1.0, within 1% 0.95, within 3% 0.85,
within 5% 0.75, within 10% 0.60, otherwise 0.0 — and a zero (absent) total
on either side scores 0.0. -/
theorem total_score_follows_implemented_bands (r p : TotalsData)
    (hr : 0 ≤ r.total) (hp : 0 ≤ p.total) :
    (compare_totals_detailed r p).score = implementedTotalScore r.total p.total := by
  unfold compare_totals_detailed implementedTotalScore
  by_cases h0 : r.total = 0 ∨ p.total = 0
  · rw [if_pos h0, if_pos h0]
  · rw [if_neg h0, if_neg h0]
    push_neg at h0
    have hM : 0 < max r.total p.total :=
      lt_max_iff.mpr (Or.inl (lt_of_le_of_ne hr (Ne.symm h0.1)))
    have hcond : ∀ c : ℚ, (|r.total - p.total| / max r.total p.total * 100 ≤ c ↔
        |r.total - p.total| ≤ c / 100 * max r.total p.total) := by
      intro c
      rw [div_mul_eq_mul_div, div_le_iff₀ hM, div_mul_eq_mul_div,
        le_div_iff₀ (by norm_num : (0 : ℚ) < 100)]
    simp only [abs_eq_zero, sub_eq_zero, hcond 1, hcond 3, hcond 5, hcond 10]

/-- C2 amended witness: totals 98 and 100 land in the 3% band with score
0.85 on both sides of the equation. -/
theorem total_score_follows_implemented_bands_witness :
    (0 : ℚ) ≤ (⟨98, 0, 0⟩ : TotalsData).total ∧
      (0 : ℚ) ≤ (⟨100, 0, 0⟩ : TotalsData).total ∧
      (compare_totals_detailed ⟨98, 0, 0⟩ ⟨100, 0, 0⟩).score =
        implementedTotalScore 98 100 :=
  ⟨by norm_num, by norm_num,
    total_score_follows_implemented_bands ⟨98, 0, 0⟩ ⟨100, 0, 0⟩ (by norm_num) (by norm_num)⟩

/-! ## C10: determinism and the clock -/

/-- C10 counterexample: with a parsed receipt transaction date, the date
sub-score read from the current clock differs between a run 10 days after
the transaction (score 1.0) and a run 200 days after it (score 0.3), so two
runs on identical inputs do not produce identical results. -/
theorem validation_reads_clock :
    (perform_receipt_validation ⟨⟨"acme", "", "", ""⟩, [], ⟨100, 0, 0⟩, .parsed 0⟩
        ⟨⟨"acme", "", "", ""⟩, [], ⟨100, 0, 0⟩⟩ 10).date_match = 1 ∧
      (perform_receipt_validation ⟨⟨"acme", "", "", ""⟩, [], ⟨100, 0, 0⟩, .parsed 0⟩
        ⟨⟨"acme", "", "", ""⟩, [], ⟨100, 0, 0⟩⟩ 200).date_match = 0.3 ∧
      perform_receipt_validation ⟨⟨"acme", "", "", ""⟩, [], ⟨100, 0, 0⟩, .parsed 0⟩
          ⟨⟨"acme", "", "", ""⟩, [], ⟨100, 0, 0⟩⟩ 10 ≠
        perform_receipt_validation ⟨⟨"acme", "", "", ""⟩, [], ⟨100, 0, 0⟩, .parsed 0⟩
          ⟨⟨"acme", "", "", ""⟩, [], ⟨100, 0, 0⟩⟩ 200 := by
  have h1 : (perform_receipt_validation ⟨⟨"acme", "", "", ""⟩, [], ⟨100, 0, 0⟩, .parsed 0⟩
      ⟨⟨"acme", "", "", ""⟩, [], ⟨100, 0, 0⟩⟩ 10).date_match = 1 := by
    unfold perform_receipt_validation
    simp only [compare_dates]
    norm_num
  have h2 : (perform_receipt_validation ⟨⟨"acme", "", "", ""⟩, [], ⟨100, 0, 0⟩, .parsed 0⟩
      ⟨⟨"acme", "", "", ""⟩, [], ⟨100, 0, 0⟩⟩ 200).date_match = 0.3 := by
    unfold perform_receipt_validation
    simp only [compare_dates]
    norm_num
  refine ⟨h1, h2, fun hcontra => ?_⟩
  rw [hcontra, h2] at h1
  norm_num at h1

/-- C10 amended: the reconciliation is a pure function of its inputs and the
current clock; whenever the receipt carries no parseable transaction date the
result is independent of the clock, so only the date sub-score (weight 0.05)
can make two runs on identical inputs differ. -/
theorem validation_clock_independent_without_date (r : ReceiptData) (p : PoData)
    (n1 n2 : ℤ)
    (h : r.transaction = DateVal.absent ∨ r.transaction = DateVal.unparseable) :
    perform_receipt_validation r p n1 = perform_receipt_validation r p n2 := by
  have hd : compare_dates r.transaction n1 = compare_dates r.transaction n2 := by
    rcases h with h | h <;> rw [h] <;> rfl
  unfold perform_receipt_validation
  rw [hd]

/-- C10 amended witness: a receipt without a transaction date validated at
two different clock instants gives identical results. -/
theorem validation_clock_independent_without_date_witness :
    ((⟨⟨"acme", "", "", ""⟩, [], ⟨100, 0, 0⟩, .absent⟩ : ReceiptData).transaction =
        DateVal.absent ∨
      (⟨⟨"acme", "", "", ""⟩, [], ⟨100, 0, 0⟩, .absent⟩ : ReceiptData).transaction =
        DateVal.unparseable) ∧
    perform_receipt_validation ⟨⟨"acme", "", "", ""⟩, [], ⟨100, 0, 0⟩, .absent⟩
        ⟨⟨"acme", "", "", ""⟩, [], ⟨100, 0, 0⟩⟩ 0 =
      perform_receipt_validation ⟨⟨"acme", "", "", ""⟩, [], ⟨100, 0, 0⟩, .absent⟩
        ⟨⟨"acme", "", "", ""⟩, [], ⟨100, 0, 0⟩⟩ 100 :=
  ⟨Or.inl rfl,
    validation_clock_independent_without_date _ _ 0 100 (Or.inl rfl)⟩

/-- C5 witness: a PENDING two-level request whose level 2 already carries an
APPROVED decision is rejected at level 1; the status becomes REJECTED. -/
theorem reject_forces_rejected_witness :
    rejectRequest ⟨Status.pending, 2000, [⟨2, 7, Decision.approved, "fine"⟩], none⟩
        ⟨1, true, false⟩ 1 "veto" =
      .ok ⟨Status.rejected, 2000,
        [⟨2, 7, Decision.approved, "fine"⟩, ⟨1, 1, Decision.rejected, "veto"⟩], none⟩ ∧
    (⟨Status.rejected, 2000,
        [⟨2, 7, Decision.approved, "fine"⟩, ⟨1, 1, Decision.rejected, "veto"⟩], none⟩ :
      RequestState).status = Status.rejected :=
  ⟨by decide,
    reject_forces_rejected ⟨Status.pending, 2000, [⟨2, 7, Decision.approved, "fine"⟩], none⟩
      ⟨1, true, false⟩ 1 "veto" _ (by decide)⟩

/-! ## Lemmas about the similarity and comparison functions -/

theorem string_eq_empty_of_length_zero (s : String) (h : s.length = 0) : s = "" := by
  cases s with
  | mk data =>
      have hd : data.length = 0 := h
      have hnil : data = [] := List.length_eq_zero.mp hd
      rw [hnil]

theorem pyLower_fix (s : String) (h : ∀ ch ∈ s.data, Char.toLower ch = ch) :
    pyLower s = s := by
  unfold pyLower
  apply String.ext
  show s.data.map Char.toLower = s.data
  rw [List.map_congr_left h]
  simp

theorem dropWhile_eq_self_of_all {α : Type} (p : α → Bool) (l : List α)
    (h : ∀ c ∈ l, p c = false) : l.dropWhile p = l := by
  cases l with
  | nil => rfl
  | cons a t =>
      rw [List.dropWhile_cons, if_neg]
      simp [h a (by simp)]

theorem pyStrip_fix (s : String) (h : ∀ ch ∈ s.data, ch.isWhitespace = false) :
    pyStrip s = s := by
  unfold pyStrip
  rw [dropWhile_eq_self_of_all _ _ h,
    dropWhile_eq_self_of_all _ _ (fun c hc => h c (List.mem_reverse.mp hc)),
    List.reverse_reverse]

theorem pyLower_ne_empty (s : String) (h : s ≠ "") : pyLower s ≠ "" := by
  intro he
  apply h
  have hd : s.data.map Char.toLower = [] := congrArg String.data he
  apply String.ext
  show s.data = []
  exact List.map_eq_nil.mp hd

theorem sim_self (s : String) (h : s ≠ "") : calculate_string_similarity s s = 1 := by
  simp only [calculate_string_similarity]
  rw [if_neg (by simp [h])]
  simp

theorem sim_nonneg (a b : String) : 0 ≤ calculate_string_similarity a b := by
  simp only [calculate_string_similarity]
  split_ifs <;> try norm_num
  all_goals positivity

theorem sim_le_one (a b : String) : calculate_string_similarity a b ≤ 1 := by
  simp only [calculate_string_similarity]
  split_ifs <;>
    first
      | norm_num
      | exact le_trans (min_le_left _ _) (by norm_num)

theorem sim_stable_ne (a b : String) (hne : a ≠ b)
    (ha : pyStrip (pyLower a) = a) (hb : pyStrip (pyLower b) = b) :
    calculate_string_similarity a b ≤ 0.9 := by
  simp only [calculate_string_similarity]
  rw [ha, hb]
  split_ifs with h1 h3 h4 h5
  · norm_num
  · norm_num
  · exact min_le_left _ _
  · exfalso
    push_neg at h1
    rcases max_choice a.length b.length with hm | hm <;> rw [hm] at h5
    · exact h1.1 (string_eq_empty_of_length_zero a h5)
    · exact h1.2 (string_eq_empty_of_length_zero b h5)
  · exact le_trans (min_le_left _ _) (by norm_num)

theorem phone_nonneg (p q : String) : 0 ≤ compare_phone_numbers p q := by
  simp only [compare_phone_numbers]
  split_ifs <;> norm_num

theorem compare_dates_ge (d : DateVal) (t : ℤ) : 0.3 ≤ compare_dates d t := by
  cases d with
  | absent => norm_num [compare_dates]
  | unparseable => norm_num [compare_dates]
  | parsed day =>
      simp only [compare_dates]
      split_ifs <;> norm_num

theorem vendor_self_ge (v : VendorData) (hname : pyStrip (pyLower v.name) ≠ "") :
    0.78 ≤ (compare_vendors_detailed v v).score := by
  simp only [compare_vendors_detailed]
  rw [if_neg (by simp [hname])]
  simp only
  rw [sim_self _ hname]
  have hcs : (0 : ℚ) ≤
      (if v.phone ≠ "" ∧ v.phone ≠ "" then compare_phone_numbers v.phone v.phone else 0) +
      (if v.email ≠ "" ∧ v.email ≠ "" then
        calculate_string_similarity (pyLower v.email) (pyLower v.email) else 0) := by
    apply add_nonneg
    · split_ifs with h
      · exact phone_nonneg _ _
      · norm_num
    · split_ifs with h
      · exact sim_nonneg _ _
      · norm_num
  have ham : (0.8 : ℚ) ≤
      (if v.address ≠ "" ∧ v.address ≠ "" then
        calculate_string_similarity (pyLower v.address) (pyLower v.address) else 0.8) := by
    split_ifs with h
    · rw [sim_self _ (pyLower_ne_empty _ h.1)]
      norm_num
    · norm_num
  nlinarith

theorem vendor_self_name_only (v : VendorData) (hname : pyStrip (pyLower v.name) ≠ "")
    (hph : v.phone = "") (hem : v.email = "") (had : v.address = "") :
    (compare_vendors_detailed v v).score = 0.78 := by
  simp only [compare_vendors_detailed]
  rw [if_neg (by simp [hname])]
  simp only [hph, hem, had]
  rw [sim_self _ hname]
  norm_num

theorem totals_self (t : TotalsData) (h : t.total ≠ 0) :
    (compare_totals_detailed t t).score = 1 := by
  simp only [compare_totals_detailed]
  rw [if_neg (by simp [h])]
  simp [sub_self, abs_zero]

/-! Greedy matching of a list of items against itself: with nonempty,
normalisation-stable, pairwise-distinct descriptions every receipt item is
matched with itself. -/

theorem bestFold_le (rdesc : String) (unm l : List NormItem)
    (acc : Option NormItem × ℚ)
    (hl : ∀ p ∈ l, calculate_string_similarity rdesc p.description ≤ 0.9)
    (hacc : acc.2 ≤ 0.9) :
    (l.foldl (bestStep rdesc unm) acc).2 ≤ 0.9 := by
  induction l generalizing acc with
  | nil => exact hacc
  | cons p t ih =>
      rw [List.foldl_cons]
      refine ih _ (fun q hq => hl q (List.mem_cons_of_mem _ hq)) ?_
      simp only [bestStep]
      split_ifs with h1 h2
      · exact hl p (List.mem_cons_self _ _)
      · exact hacc
      · exact hacc

theorem bestFold_stay (rdesc : String) (unm l : List NormItem) (b : Option NormItem)
    (hl : ∀ p ∈ l, calculate_string_similarity rdesc p.description ≤ 1) :
    l.foldl (bestStep rdesc unm) (b, 1) = (b, 1) := by
  induction l with
  | nil => rfl
  | cons p t ih =>
      rw [List.foldl_cons]
      have hstep : bestStep rdesc unm (b, 1) p = (b, 1) := by
        simp only [bestStep]
        split_ifs with h1 h2
        · exact absurd h2.1 (not_lt.mpr (hl p (List.mem_cons_self _ _)))
        · rfl
        · rfl
      rw [hstep]
      exact ih (fun q hq => hl q (List.mem_cons_of_mem _ hq))

theorem bestStep_hit (rdesc : String) (unm : List NormItem) (r : NormItem)
    (acc : Option NormItem × ℚ) (hmem : r ∈ unm)
    (hsim : calculate_string_similarity rdesc r.description = 1)
    (hacc : acc.2 ≤ 0.9) :
    bestStep rdesc unm acc r = (some r, 1) := by
  simp only [bestStep]
  rw [if_pos hmem]
  simp only [hsim]
  rw [if_pos ⟨by linarith, by norm_num⟩]

theorem bestMatch_self (pre post unm : List NormItem) (r : NormItem)
    (hrne : r.description ≠ "")
    (hrstab : pyStrip (pyLower r.description) = r.description)
    (hmem : r ∈ unm)
    (hpre : ∀ p ∈ pre, p.description ≠ r.description ∧
      pyStrip (pyLower p.description) = p.description) :
    bestMatch r.description (pre ++ r :: post) unm = (some r, 1) := by
  unfold bestMatch
  rw [List.foldl_append, List.foldl_cons]
  have h1 : (pre.foldl (bestStep r.description unm) (none, 0)).2 ≤ 0.9 := by
    apply bestFold_le
    · intro p hp
      exact sim_stable_ne _ _ (fun he => (hpre p hp).1 he.symm) hrstab (hpre p hp).2
    · norm_num
  rw [bestStep_hit _ _ _ _ hmem (sim_self _ hrne) h1]
  exact bestFold_stay _ _ _ _ (fun p _ => sim_le_one _ _)

theorem itemsLoop_self (M : List NormItem)
    (hne : ∀ m ∈ M, m.description ≠ "")
    (hstab : ∀ m ∈ M, pyStrip (pyLower m.description) = m.description)
    (hdist : M.Pairwise (fun a b => a.description ≠ b.description)) :
    ∀ R pre, M = pre ++ R →
      R.foldl (itemsStep M) ⟨pre.map (fun m => (m, m)), R, R⟩ =
        ⟨M.map (fun m => (m, m)), [], []⟩ := by
  intro R
  induction R with
  | nil =>
      intro pre hM
      rw [List.foldl_nil, hM, List.append_nil]
  | cons r R2 ih =>
      intro pre hM
      rw [List.foldl_cons]
      have hrM : r ∈ M := by rw [hM]; simp
      have hbest : bestMatch r.description M (r :: R2) = (some r, 1) := by
        rw [hM]
        apply bestMatch_self
        · exact hne r hrM
        · exact hstab r hrM
        · simp
        · intro p hp
          have hpM : p ∈ M := by rw [hM]; simp [hp]
          refine ⟨?_, hstab p hpM⟩
          have := (List.pairwise_append.mp (hM ▸ hdist)).2.2 p hp r (by simp)
          exact this
      have hstep : itemsStep M ⟨pre.map (fun m => (m, m)), r :: R2, r :: R2⟩ r =
          ⟨(pre ++ [r]).map (fun m => (m, m)), R2, R2⟩ := by
        unfold itemsStep
        rw [hbest]
        simp only [List.erase_cons_head, List.map_append, List.map_cons, List.map_nil]
      rw [hstep]
      exact ih (pre ++ [r]) (by rw [hM, List.append_assoc]; rfl)

theorem itemsMatching_self (M : List NormItem)
    (hne : ∀ m ∈ M, m.description ≠ "")
    (hstab : ∀ m ∈ M, pyStrip (pyLower m.description) = m.description)
    (hdist : M.Pairwise (fun a b => a.description ≠ b.description)) :
    itemsMatching M M = ⟨M.map (fun m => (m, m)), [], []⟩ :=
  itemsLoop_self M hne hstab hdist M [] rfl

/-- Per-item hypothesis for the identical-inputs claims: a nonempty
description made of lower-case-stable, non-whitespace characters. -/
theorem clean_stable (it : RawItem) (h : cleanDescription it) :
    pyStrip (pyLower it.description) = it.description := by
  rw [pyLower_fix _ (fun ch hc => (h.2 ch hc).1),
    pyStrip_fix _ (fun ch hc => (h.2 ch hc).2)]

theorem normalizeItem_clean (a : RawItem) (ha : cleanDescription a) :
    normalizeItem a = some ⟨a.description, a.quantity,
      (if a.unit_price ≠ 0 then a.unit_price else a.price),
      a.quantity * (if a.unit_price ≠ 0 then a.unit_price else a.price)⟩ := by
  simp only [normalizeItem]
  rw [if_pos ha.1, clean_stable a ha, if_pos ha.1]

theorem normalize_clean (items : List RawItem)
    (h : ∀ it ∈ items, cleanDescription it) :
    normalize_items_for_comparison items = items.map (fun it =>
      ⟨it.description, it.quantity,
        (if it.unit_price ≠ 0 then it.unit_price else it.price),
        it.quantity * (if it.unit_price ≠ 0 then it.unit_price else it.price)⟩) := by
  induction items with
  | nil => rfl
  | cons a t ih =>
      have ha := h a (List.mem_cons_self _ _)
      unfold normalize_items_for_comparison
      simp only [List.filterMap_cons, normalizeItem_clean a ha, List.map_cons]
      unfold normalize_items_for_comparison at ih
      rw [ih (fun it hit => h it (List.mem_cons_of_mem _ hit))]

theorem compare_items_self (items : List RawItem)
    (hclean : ∀ it ∈ items, cleanDescription it)
    (hdist : items.Pairwise (fun a b => a.description ≠ b.description)) :
    (compare_items_detailed items items).score = 1 := by
  cases hitems : items with
  | nil => rfl
  | cons it0 rest =>
      subst hitems
      simp only [compare_items_detailed]
      rw [if_neg (by simp), if_neg (by simp)]
      rw [normalize_clean _ hclean]
      set g : RawItem → NormItem := fun it =>
        ⟨it.description, it.quantity,
          (if it.unit_price ≠ 0 then it.unit_price else it.price),
          it.quantity * (if it.unit_price ≠ 0 then it.unit_price else it.price)⟩ with hg
      have hMne : ∀ m ∈ (it0 :: rest).map g, m.description ≠ "" := by
        intro m hm
        rcases List.mem_map.mp hm with ⟨it, hit, hrfl⟩
        rw [← hrfl]
        exact (hclean it hit).1
      have hMstab : ∀ m ∈ (it0 :: rest).map g,
          pyStrip (pyLower m.description) = m.description := by
        intro m hm
        rcases List.mem_map.mp hm with ⟨it, hit, hrfl⟩
        rw [← hrfl]
        exact clean_stable it (hclean it hit)
      have hMdist : ((it0 :: rest).map g).Pairwise
          (fun a b => a.description ≠ b.description) := by
        apply List.Pairwise.map
        · intro a b hab
          exact hab
        · exact hdist
      rw [itemsMatching_self _ hMne hMstab hMdist]
      simp only [List.map_map, List.length_map, Function.comp_def]
      have hq : (List.filter (fun m =>
          decide (m.1.quantity ≠ m.2.quantity ∧ m.2.quantity > 0 ∧
            |m.1.quantity - m.2.quantity| / m.2.quantity * 100 > 5))
          ((it0 :: rest).map (fun m => (g m, g m)))) = [] := by
        rw [List.filter_eq_nil_iff]
        intro x hx
        rcases List.mem_map.mp hx with ⟨it, _, hrfl⟩
        rw [← hrfl]
        simp
      have hp : (List.filter (fun m =>
          decide (m.1.unit_price ≠ m.2.unit_price ∧ m.2.unit_price > 0 ∧
            |m.1.unit_price - m.2.unit_price| / m.2.unit_price * 100 > 2))
          ((it0 :: rest).map (fun m => (g m, g m)))) = [] := by
        rw [List.filter_eq_nil_iff]
        intro x hx
        rcases List.mem_map.mp hx with ⟨it, _, hrfl⟩
        rw [← hrfl]
        simp
      rw [hq, hp]
      simp only [List.length_nil, List.length_cons]
      rw [if_neg (by simp)]
      have hnz : ((rest.length + 1 : ℕ) : ℚ) ≠ 0 := by positivity
      have hmax : max (rest.length + 1) (rest.length + 1) = rest.length + 1 := max_self _
      rw [hmax]
      rw [div_self hnz]
      norm_num

/-! ## Fraud-indicator flags and validation of identical inputs -/

theorem mem_ite_nil_right {α : Type} (a : α) (c : Prop) [Decidable c] (l : List α) :
    (a ∈ if c then l else []) ↔ (c ∧ a ∈ l) := by
  split_ifs with h <;> simp [h]

theorem extra_items_flag_never (r : ReceiptData) (p : PoData) (today : ℤ) :
    "SUSPICIOUS_EXTRA_ITEMS" ∉ (perform_receipt_validation r p today).flags := by
  simp only [perform_receipt_validation, check_fraud_indicators]
  simp [List.mem_append, mem_ite_nil_right]

theorem sim_aaaa_zzzz : calculate_string_similarity "aaaa" "zzzz" = 0 := by
  simp only [calculate_string_similarity]
  rw [if_neg (by decide)]
  rw [show pyStrip (pyLower "aaaa") = "aaaa" from by decide]
  rw [show pyStrip (pyLower "zzzz") = "zzzz" from by decide]
  rw [if_neg (by decide), if_neg (by decide), if_neg (by decide), if_neg (by decide)]
  rw [show countPosMatches "aaaa".data "zzzz".data = 0 from rfl]
  rw [show max "aaaa".length "zzzz".length = 4 from rfl]
  norm_num

theorem normalizeItem_aaaa :
    normalizeItem ⟨"aaaa", "", "", 1, 100, 0⟩ = some ⟨"aaaa", 1, 100, 100⟩ := by
  simp only [normalizeItem]
  rw [if_pos (show ("aaaa" : String) ≠ "" from by decide)]
  rw [show pyStrip (pyLower "aaaa") = "aaaa" from by decide]
  rw [if_pos (show (100 : ℚ) ≠ 0 from by norm_num)]
  rw [if_pos (show ("aaaa" : String) ≠ "" from by decide), one_mul]

theorem normalizeItem_zzzz :
    normalizeItem ⟨"zzzz", "", "", 1, 100, 0⟩ = some ⟨"zzzz", 1, 100, 100⟩ := by
  simp only [normalizeItem]
  rw [if_pos (show ("zzzz" : String) ≠ "" from by decide)]
  rw [show pyStrip (pyLower "zzzz") = "zzzz" from by decide]
  rw [if_pos (show (100 : ℚ) ≠ 0 from by norm_num)]
  rw [if_pos (show ("zzzz" : String) ≠ "" from by decide), one_mul]

theorem itemsMatching_aaaa_zzzz :
    itemsMatching [(⟨"aaaa", 1, 100, 100⟩ : NormItem)] [⟨"zzzz", 1, 100, 100⟩] =
      ⟨[], [⟨"aaaa", 1, 100, 100⟩], [⟨"zzzz", 1, 100, 100⟩]⟩ := by
  simp only [itemsMatching, List.foldl_cons, List.foldl_nil, itemsStep, bestMatch, bestStep]
  rw [if_pos (List.mem_singleton_self _)]
  rw [sim_aaaa_zzzz]
  rw [if_neg (by norm_num)]

/-- C8 counterexample: the receipt item "aaaa" finds no fuzzy match against
the order's single item "zzzz", so the extra-item count 1 exceeds half of
the 1 compared item — the spec's trigger for SUSPICIOUS_EXTRA_ITEMS — yet
the validation of such a receipt does not emit that flag (the heuristic is
absent from `_check_fraud_indicators`). -/
theorem fraud_extra_items_not_flagged :
    2 * (compare_items_detailed [⟨"aaaa", "", "", 1, 100, 0⟩]
        [⟨"zzzz", "", "", 1, 100, 0⟩]).extra_items.length >
      (compare_items_detailed [⟨"aaaa", "", "", 1, 100, 0⟩]
        [⟨"zzzz", "", "", 1, 100, 0⟩]).total_items ∧
    "SUSPICIOUS_EXTRA_ITEMS" ∉ (perform_receipt_validation
        ⟨⟨"acme", "", "", ""⟩, [⟨"aaaa", "", "", 1, 100, 0⟩], ⟨100, 0, 0⟩, .absent⟩
        ⟨⟨"acme", "", "", ""⟩, [⟨"zzzz", "", "", 1, 100, 0⟩], ⟨100, 0, 0⟩⟩ 0).flags := by
  constructor
  · have hnorm1 : normalize_items_for_comparison [⟨"aaaa", "", "", 1, 100, 0⟩] =
        [⟨"aaaa", 1, 100, 100⟩] := by
      simp [normalize_items_for_comparison, normalizeItem_aaaa]
    have hnorm2 : normalize_items_for_comparison [⟨"zzzz", "", "", 1, 100, 0⟩] =
        [⟨"zzzz", 1, 100, 100⟩] := by
      simp [normalize_items_for_comparison, normalizeItem_zzzz]
    simp only [compare_items_detailed]
    rw [if_neg (by simp), if_neg (by simp), hnorm1, hnorm2, itemsMatching_aaaa_zzzz]
    simp
  · exact extra_items_flag_never _ _ _

/-- C8: membership characterisation of the fraud pass
(`_check_fraud_indicators`, lines 1617-1657) the validation always runs:
SUSPICIOUS_AMOUNT_INCREASE exactly when the receipt total exceeds 1.5 times
the order total, POTENTIAL_VENDOR_FRAUD exactly when the vendor score is
below 0.3, MISSING_VENDOR_INFO exactly when the vendor name is absent,
MISSING_TRANSACTION_DATE exactly when the transaction date is absent — and
no input is ever flagged SUSPICIOUS_EXTRA_ITEMS: the extra-items heuristic
of the spec does not exist in the code. -/
theorem fraud_flags_characterization (receipt : ReceiptData) (po : PoData) (vendorMatch : ℚ) :
    ("SUSPICIOUS_AMOUNT_INCREASE" ∈ check_fraud_indicators receipt po vendorMatch ↔
      receipt.totals.total > po.totals.total * 1.5) ∧
    ("POTENTIAL_VENDOR_FRAUD" ∈ check_fraud_indicators receipt po vendorMatch ↔
      vendorMatch < 0.3) ∧
    ("SUSPICIOUS_EXTRA_ITEMS" ∉ check_fraud_indicators receipt po vendorMatch) ∧
    ("MISSING_VENDOR_INFO" ∈ check_fraud_indicators receipt po vendorMatch ↔
      receipt.vendor.name = "") ∧
    ("MISSING_TRANSACTION_DATE" ∈ check_fraud_indicators receipt po vendorMatch ↔
      receipt.transaction = DateVal.absent) := by
  refine ⟨?_, ?_, ?_, ?_, ?_⟩ <;>
    simp [check_fraud_indicators, List.mem_append, mem_ite_nil_right]

/-- C1 counterexample: on identical vendor ("acme", no contact details), a
single identical line item and identical totals of 100, the overall score
is 0.78·0.25 + 1·0.40 + 1·0.30 + 0.5·0.05 = 0.92 < 0.95: the vendor
self-comparison only reaches 0.78 because the final score weighs the raw
contact sum 0 instead of the 0.8 contact default.  Manual review is still
not requested. -/
theorem validate_identical_score_below_claim :
    ¬ (0.95 ≤ (perform_receipt_validation
        ⟨⟨"acme", "", "", ""⟩, [⟨"widget", "", "", 1, 100, 0⟩], ⟨100, 0, 0⟩, .absent⟩
        ⟨⟨"acme", "", "", ""⟩, [⟨"widget", "", "", 1, 100, 0⟩], ⟨100, 0, 0⟩⟩
        0).overall_score) ∧
    (perform_receipt_validation
        ⟨⟨"acme", "", "", ""⟩, [⟨"widget", "", "", 1, 100, 0⟩], ⟨100, 0, 0⟩, .absent⟩
        ⟨⟨"acme", "", "", ""⟩, [⟨"widget", "", "", 1, 100, 0⟩], ⟨100, 0, 0⟩⟩
        0).needs_review = false := by
  have hover : (perform_receipt_validation
      ⟨⟨"acme", "", "", ""⟩, [⟨"widget", "", "", 1, 100, 0⟩], ⟨100, 0, 0⟩, .absent⟩
      ⟨⟨"acme", "", "", ""⟩, [⟨"widget", "", "", 1, 100, 0⟩], ⟨100, 0, 0⟩⟩
      0).overall_score =
      (compare_vendors_detailed ⟨"acme", "", "", ""⟩ ⟨"acme", "", "", ""⟩).score * 0.25 +
      (compare_totals_detailed ⟨100, 0, 0⟩ ⟨100, 0, 0⟩).score * 0.40 +
      (compare_items_detailed [⟨"widget", "", "", 1, 100, 0⟩]
        [⟨"widget", "", "", 1, 100, 0⟩]).score * 0.30 +
      compare_dates .absent 0 * 0.05 := rfl
  have hnr : (perform_receipt_validation
      ⟨⟨"acme", "", "", ""⟩, [⟨"widget", "", "", 1, 100, 0⟩], ⟨100, 0, 0⟩, .absent⟩
      ⟨⟨"acme", "", "", ""⟩, [⟨"widget", "", "", 1, 100, 0⟩], ⟨100, 0, 0⟩⟩
      0).needs_review =
      decide ((perform_receipt_validation
        ⟨⟨"acme", "", "", ""⟩, [⟨"widget", "", "", 1, 100, 0⟩], ⟨100, 0, 0⟩, .absent⟩
        ⟨⟨"acme", "", "", ""⟩, [⟨"widget", "", "", 1, 100, 0⟩], ⟨100, 0, 0⟩⟩
        0).overall_score < 0.8) := rfl
  have hv : (compare_vendors_detailed ⟨"acme", "", "", ""⟩ ⟨"acme", "", "", ""⟩).score = 0.78 :=
    vendor_self_name_only ⟨"acme", "", "", ""⟩ (by decide) rfl rfl rfl
  have ht : (compare_totals_detailed (⟨100, 0, 0⟩ : TotalsData) ⟨100, 0, 0⟩).score = 1 :=
    totals_self ⟨100, 0, 0⟩ (by norm_num)
  have hi : (compare_items_detailed [⟨"widget", "", "", 1, 100, 0⟩]
      [⟨"widget", "", "", 1, 100, 0⟩]).score = 1 :=
    compare_items_self [⟨"widget", "", "", 1, 100, 0⟩] (by decide) (by decide)
  have hd : compare_dates .absent 0 = 0.5 := rfl
  constructor
  · rw [hover, hv, ht, hi, hd]
    norm_num
  · rw [hnr]
    apply decide_eq_false
    rw [hover, hv, ht, hi, hd]
    norm_num

/-- C1 (amended): for identical vendor, items and totals — a nonempty
normalised vendor name, nonempty already-normalised pairwise-distinct item
descriptions, a nonzero total — the overall score is at least 0.9 (not
0.95: the vendor self-score is only 0.78 when no contact data is present)
and `needs_review` is false. -/
theorem validate_identical_inputs (v : VendorData) (items : List RawItem)
    (t : TotalsData) (d : DateVal) (today : ℤ)
    (hname : pyStrip (pyLower v.name) ≠ "")
    (hclean : ∀ it ∈ items, cleanDescription it)
    (hdist : items.Pairwise (fun a b => a.description ≠ b.description))
    (htot : t.total ≠ 0) :
    0.9 ≤ (perform_receipt_validation ⟨v, items, t, d⟩ ⟨v, items, t⟩ today).overall_score ∧
    (perform_receipt_validation ⟨v, items, t, d⟩ ⟨v, items, t⟩ today).needs_review = false := by
  have hover : (perform_receipt_validation ⟨v, items, t, d⟩ ⟨v, items, t⟩ today).overall_score =
      (compare_vendors_detailed v v).score * 0.25 +
      (compare_totals_detailed t t).score * 0.40 +
      (compare_items_detailed items items).score * 0.30 +
      compare_dates d today * 0.05 := rfl
  have hnr : (perform_receipt_validation ⟨v, items, t, d⟩ ⟨v, items, t⟩ today).needs_review =
      decide ((perform_receipt_validation ⟨v, items, t, d⟩ ⟨v, items, t⟩
        today).overall_score < 0.8) := rfl
  have hv := vendor_self_ge v hname
  have ht := totals_self t htot
  have hi := compare_items_self items hclean hdist
  have hd := compare_dates_ge d today
  constructor
  · rw [hover, ht, hi]
    linarith [hv, hd]
  · rw [hnr]
    apply decide_eq_false
    rw [hover, ht, hi]
    push_neg
    linarith [hv, hd]

/-- C1 amended witness: vendor "acme", one item "widget" of quantity 2 at
unit price 50, total 100, no parseable transaction date. -/
theorem validate_identical_inputs_witness :
    0.9 ≤ (perform_receipt_validation
        ⟨⟨"acme", "", "", ""⟩, [⟨"widget", "", "", 2, 50, 0⟩], ⟨100, 0, 0⟩, .unparseable⟩
        ⟨⟨"acme", "", "", ""⟩, [⟨"widget", "", "", 2, 50, 0⟩], ⟨100, 0, 0⟩⟩
        5).overall_score ∧
    (perform_receipt_validation
        ⟨⟨"acme", "", "", ""⟩, [⟨"widget", "", "", 2, 50, 0⟩], ⟨100, 0, 0⟩, .unparseable⟩
        ⟨⟨"acme", "", "", ""⟩, [⟨"widget", "", "", 2, 50, 0⟩], ⟨100, 0, 0⟩⟩
        5).needs_review = false :=
  validate_identical_inputs ⟨"acme", "", "", ""⟩ [⟨"widget", "", "", 2, 50, 0⟩] ⟨100, 0, 0⟩
    .unparseable 5 (by decide) (by decide) (by decide) (by norm_num)


end P2P
